import Mathlib

/-!
# INEVITABILITY — verification of the analytical engine

A shallow embedding of the core of the INEVITABILITY repository
(`src/backend/`): the data model (`models.py`), the Boolean satisfiability
solver and inevitability scorer (`solver_engine.py`), the MCS extractor
(`mcs_extractor.py`), the theater classifier (`theater_detector.py`), the
counterfactual engine (`counterfactual.py`), the custom-graph validation
(`api.py`), and the probability layer (`probability_engine.py`).

Conventions of the embedding:

* Python floats are modelled as rationals (`ℚ`).  `round(x, n)` is modelled
  as round-half-to-even on rationals (`py_round`).
* Python dicts of booleans (intervention maps) are association lists
  consulted only through `iget` (first-match lookup), which matches dict
  lookup for every list produced by `iset`/`mk_true_interv`.
* The Z3 call `solver.check()` on the Boolean encoding of §4.3 is modelled
  by exhaustive evaluation over all assignments to the mentioned variables
  (`check_satisfiability`), which agrees with Z3's sat/unsat semantics.
  Z3 may also time out, which the source maps to a `TIMEOUT` status; because
  a timeout is a resource event and not a function of the formula, the
  scorer `compute_inevitability_with` is parametrised by the solver call so
  that timeout behaviour can be analysed.
* Fields never read by any embedded operation (free-text descriptions,
  uuids, tag lists, timing fields, witness extraction) are omitted; each
  omission is noted at the structure it concerns.
-/

/-! ## Enumerations (src/backend/models.py) -/

/-- `models.NodeType` (models.py lines 15-21). -/
inductive NodeType where
  | asset | identity | privilege | control | channel | trust_boundary
deriving DecidableEq, Repr

/-- `models.EdgeType` (models.py lines 24-31). -/
inductive EdgeType where
  | access | privilege | escalation | lateral | control | trust | dependency
deriving DecidableEq, Repr

/-- `models.ControlState` (models.py lines 40-44).  The source constructor
named after the banned word list is rendered `partial'`. -/
inductive ControlState where
  | active | inactive | partial' | unknown
deriving DecidableEq, Repr

/-- `models.DefenseClassification` (models.py lines 47-51). -/
inductive DefenseClassification where
  | critical | necessary | partial' | irrelevant
deriving DecidableEq, Repr

/-- `models.SolverStatus` (models.py lines 70-74). -/
inductive SolverStatus where
  | sat | unsat | timeout | unknown
deriving DecidableEq, Repr

/-! ## Data model (src/backend/models.py)

`InfraNode` keeps exactly the fields read by the embedded operations:
`id`, `type`, `name`, `control_state`, `annual_cost`, `control_type`.
The remaining fields of models.py (description, properties, tags,
confidence, privilege_level, mfa_enabled, criticality,
data_classification) are pure data never read by any embedded function.
Note that models.py does NOT declare `effectiveness` or
`bypass_probability` on `InfraNode`, nor `exploit_probability` on
`InfraEdge`, although `breach_data.py` passes them to the constructors
(pydantic ignores unknown keyword arguments) and `probability_engine.py`
reads them; see `infra_edge_model_fields` below. -/
structure InfraNode where
  id : String
  type : NodeType
  name : String := ""
  control_state : Option ControlState := none
  annual_cost : Option ℚ := none
  control_type : Option String := none
deriving DecidableEq, Repr

/-- `models.InfraEdge` (models.py lines 117-124), faithful to the declared
fields: there is no `exploit_probability` field.  `constraint` is omitted
(never read by an embedded operation). -/
structure InfraEdge where
  id : String := ""
  source : String
  target : String
  edge_type : EdgeType
  label : String := ""
  weight : ℚ := 1
deriving DecidableEq, Repr

/-- The attribute names declared in the class body of `models.InfraEdge`
(models.py lines 117-124).  A pydantic model instance exposes exactly its
declared fields as attributes; reading any other attribute raises
`AttributeError`, even if the name was passed to the constructor (extra
keyword arguments are ignored). -/
def infra_edge_model_fields : List String :=
  ["id", "source", "target", "edge_type", "label", "constraint", "weight"]

/-- Whether reading attribute `attr` on an `InfraEdge` instance succeeds
(pydantic semantics: it succeeds exactly when the attribute is a declared
field of the class). -/
def infra_edge_getattr_succeeds (_e : InfraEdge) (attr : String) : Bool :=
  infra_edge_model_fields.contains attr

/-- `models.CausalGraph` (models.py lines 129-153).  `metadata` omitted. -/
structure CausalGraph where
  nodes : List InfraNode := []
  edges : List InfraEdge := []
deriving DecidableEq, Repr

/-- `CausalGraph.get_node` (models.py lines 134-138). -/
def CausalGraph.get_node (g : CausalGraph) (node_id : String) : Option InfraNode :=
  g.nodes.find? (fun n => n.id = node_id)

/-- `CausalGraph.get_controls` (models.py lines 140-141). -/
def CausalGraph.get_controls (g : CausalGraph) : List InfraNode :=
  g.nodes.filter (fun n => n.type = NodeType.control)

/-- `CausalGraph.get_parents` (models.py lines 149-150). -/
def CausalGraph.get_parents (g : CausalGraph) (node_id : String) : List String :=
  (g.edges.filter (fun e => e.target = node_id)).map (fun e => e.source)

/-- `CausalGraph.get_children` (models.py lines 152-153). -/
def CausalGraph.get_children (g : CausalGraph) (node_id : String) : List String :=
  (g.edges.filter (fun e => e.source = node_id)).map (fun e => e.target)

/-- `models.StructuralEquation` (models.py lines 167-172).
`equation_type` (always "boolean_conjunction") and `smt_encoding` omitted. -/
structure StructuralEquation where
  target_variable : String
  parent_variables : List String := []
  negated_parents : List String := []
deriving DecidableEq, Repr

/-- `models.SCM` (models.py lines 175-183).  `assumptions` is omitted:
`check_satisfiability` never adds assumption constraints (the method
`_encode_assumption_constraints` is never called by any embedded
operation).  `exogenous_constraints`, `node_metadata`, ids and version are
pure data. -/
structure SCM where
  graph : CausalGraph
  equations : List StructuralEquation := []
deriving DecidableEq, Repr

/-- `models.GoalPredicate` (models.py lines 188-196); `description`,
`template` and `priority` omitted (never read). -/
structure GoalPredicate where
  id : String := ""
  name : String := ""
  target_assets : List String := []
  required_conditions : List String := []
  threshold : ℚ := 7/10
deriving DecidableEq, Repr

/-- `models.SolverResult` (models.py lines 201-206); only the `status`
field is kept (`witness`, `unsat_core`, `solve_time_ms`, `solver_used`
are not consulted by any claimed behaviour). -/
structure SolverResult where
  status : SolverStatus
deriving DecidableEq, Repr

/-- `models.InevitabilityResult` (models.py lines 209-215).
`witness_path` is carried (the probability layer reads it) but the solver
embedding always produces `none` for it — witness extraction
(`_extract_attack_path`) is presentation-only and not claimed. -/
structure InevitabilityResult where
  goal_id : String := ""
  goal_name : String := ""
  score : ℚ
  is_inevitable : Bool
  witness_path : Option (List String) := none
  solver_result : SolverResult
deriving DecidableEq, Repr

/-! ## Intervention maps (Python dicts `str -> bool`) -/

/-- An intervention map: a Python `dict[str, bool]`, represented as an
association list consulted by first-match lookup. -/
abbrev Interv := List (String × Bool)

/-- `d[k]` / `k in d`: `some v` when the key is bound. -/
def iget (m : Interv) (k : String) : Option Bool :=
  m.lookup k

/-- `d[k] = v`: replace the binding if present, else append. -/
def iset (m : Interv) (k : String) (v : Bool) : Interv :=
  if (m.lookup k).isSome then
    m.map (fun p => if p.1 = k then (k, v) else p)
  else m ++ [(k, v)]

/-- `{c: True for c in ids}` — lookup-equivalent to the Python dict. -/
def mk_true_interv (ids : List String) : Interv :=
  ids.map (fun i => (i, true))

/-! ## Python rounding

Python's `round(x, d)` on a real value rounds half to even.  (On floats the
argument is first a binary double; for every concrete number appearing in a
theorem below the two agree.) -/

/-- Round a rational to the nearest integer, half to even. -/
def py_round_int (x : ℚ) : ℤ :=
  if x - Int.floor x < 1/2 then Int.floor x
  else if 1/2 < x - Int.floor x then Int.floor x + 1
  else if Int.floor x % 2 = 0 then Int.floor x else Int.floor x + 1

/-- Python `round(x, d)`. -/
def py_round (x : ℚ) (d : ℕ) : ℚ :=
  (py_round_int (x * (10 : ℚ) ^ d) : ℚ) / (10 : ℚ) ^ d

/-! ## The satisfiability check (src/backend/solver_engine.py)

`CausalSolver.check_satisfiability` (lines 171-224) builds the Boolean
constraints of `_encode_scm` (lines 44-97) and
`_encode_exogenous_constraints` (lines 99-126), asserts the goal formula of
`_encode_goal` (lines 148-167), and asks Z3.  The embedding evaluates the
same constraints over every assignment of the mentioned variables, which is
Z3's sat/unsat semantics for this Boolean fragment.  The `extra_constraints`
parameter is never used by claimed call sites and is omitted. -/

/-- The Boolean variables mentioned by the encoding: one per node
(`_build_variables`) plus any id created on demand by `get_var` from an
equation or the goal. -/
def var_list (scm : SCM) (goal : GoalPredicate) : List String :=
  ((scm.graph.nodes.map (fun n => n.id))
    ++ scm.equations.flatMap
        (fun e => e.target_variable :: (e.parent_variables ++ e.negated_parents))
    ++ goal.target_assets ++ goal.required_conditions).dedup

/-- Value of a variable under an assignment (an association list over
`var_list`). -/
def aval (a : List (String × Bool)) (x : String) : Bool :=
  (a.lookup x).getD false

/-- An enabler/blocker literal of `_encode_scm`: the intervened constant
when the id is intervened, else the variable (lines 66-78). -/
def lit (interv : Interv) (a : List (String × Bool)) (x : String) : Bool :=
  match iget interv x with
  | some v => v
  | none => aval a x

/-- Whether one structural-equation constraint of `_encode_scm`
(solver_engine.py lines 55-95) holds under assignment `a`. -/
def eq_holds (interv : Interv) (a : List (String × Bool))
    (e : StructuralEquation) : Bool :=
  match iget interv e.target_variable with
  | some v => aval a e.target_variable == v
  | none =>
    let en := e.parent_variables.map (lit interv a)
    let bl := e.negated_parents.map (lit interv a)
    if en ≠ [] ∧ bl ≠ [] then
      aval a e.target_variable == (en.any id && !(bl.any id))
    else if en ≠ [] then
      aval a e.target_variable == en.any id
    else if bl ≠ [] then
      aval a e.target_variable == !(bl.any id)
    else
      true

/-- Whether the exogenous constraint of `_encode_exogenous_constraints`
(solver_engine.py lines 104-124) for node `n` holds: nodes with parents are
unconstrained here; exogenous nodes are pinned to the intervention if
intervened, else controls are pinned to `control_state == ACTIVE`,
identities to `True`, and other exogenous nodes are left free. -/
def exo_holds (scm : SCM) (interv : Interv) (a : List (String × Bool))
    (n : InfraNode) : Bool :=
  if scm.graph.get_parents n.id = [] then
    match iget interv n.id with
    | some v => aval a n.id == v
    | none =>
      if n.type = NodeType.control then
        aval a n.id == decide (n.control_state = some ControlState.active)
      else if n.type = NodeType.identity then
        aval a n.id == true
      else true
  else true

/-- The goal formula of `_encode_goal` (solver_engine.py lines 148-167):
the conjunction of all target-asset and required-condition variables,
`False` when both lists are empty.  Note the goal formula substitutes no
interventions (it uses the raw variables). -/
def goal_holds (goal : GoalPredicate) (a : List (String × Bool)) : Bool :=
  let conds := goal.target_assets ++ goal.required_conditions
  if conds = [] then false else conds.all (aval a)

/-- A full constraint-set evaluation: all structural equations, all
exogenous constraints, and the goal. -/
def satisfies (scm : SCM) (goal : GoalPredicate) (interv : Interv)
    (a : List (String × Bool)) : Bool :=
  scm.equations.all (eq_holds interv a)
    && scm.graph.nodes.all (exo_holds scm interv a)
    && goal_holds goal a

/-- All Boolean vectors of length `n`. -/
def bool_vectors : ℕ → List (List Bool)
  | 0 => [[]]
  | n + 1 => (bool_vectors n).flatMap (fun v => [true :: v, false :: v])

/-- All assignments over a variable list. -/
def assignments (vars : List String) : List (List (String × Bool)) :=
  (bool_vectors vars.length).map (fun v => vars.zip v)

/-- `CausalSolver.check_satisfiability` (solver_engine.py lines 171-224):
SAT iff some assignment satisfies every constraint and the goal. -/
def check_satisfiability (scm : SCM) (goal : GoalPredicate)
    (interv : Interv) : SolverResult :=
  if (assignments (var_list scm goal)).any (satisfies scm goal interv) then
    { status := SolverStatus.sat }
  else
    { status := SolverStatus.unsat }

/-! ## The inevitability scorer (solver_engine.py lines 236-323)

`compute_inevitability` is written against `self.check_satisfiability`,
whose Z3 backend may also report a timeout; the embedding therefore takes
the per-goal solver call as a parameter `check`.  The concrete engine
instantiates it with `check_satisfiability scm goal`
(see `compute_inevitability` below). -/

/-- The interventions used to test one identity as the sole entry point
(solver_engine.py lines 285-290): every other identity pinned `False`,
then this identity pinned `True`. -/
def identity_interv (interv : Interv) (identities : List InfraNode)
    (idn : InfraNode) : Interv :=
  iset (identities.foldl
          (fun m other => if other.id ≠ idn.id then iset m other.id false else m)
          interv)
    idn.id true

/-- Number of identities from which the goal is achievable
(solver_engine.py lines 283-294). -/
def achievable_count (check : Interv → SolverResult) (interv : Interv)
    (identities : List InfraNode) : ℕ :=
  identities.countP
    (fun idn => (check (identity_interv interv identities idn)).status = SolverStatus.sat)

/-- `active_controls_on_path` (solver_engine.py lines 305-311): the number
of (control, target-asset) pairs where the asset is a child of the
control. -/
def active_controls_on_path (scm : SCM) (goal : GoalPredicate) : ℕ :=
  scm.graph.get_controls.foldl
    (fun n ctrl =>
      n + goal.target_assets.countP (fun a => a ∈ scm.graph.get_children ctrl.id))
    0

/-- The achievable fraction `achievable_count / len(identities)`
(solver_engine.py line 297). -/
def inev_fraction (check : Interv → SolverResult) (scm : SCM)
    (interv : Interv) : ℚ :=
  (achievable_count check interv
      (scm.graph.nodes.filter (fun n => n.type = NodeType.identity)) : ℚ) /
    ((scm.graph.nodes.filter (fun n => n.type = NodeType.identity)).length : ℚ)

/-- The fraction after the first boost (solver_engine.py lines 301-302):
raised to at least 0.3 when the base check was SAT. -/
def inev_boost1 (check : Interv → SolverResult) (scm : SCM)
    (interv : Interv) (base : SolverResult) : ℚ :=
  if base.status = SolverStatus.sat then max (inev_fraction check scm interv) (3/10)
  else inev_fraction check scm interv

/-- The pre-rounding score of the per-identity branch of
`compute_inevitability` (solver_engine.py lines 283-314): the achievable
fraction, raised to at least 0.3 when the base check was SAT, and to at
least 0.8 when additionally no control has a target asset among its
children (lines 304-314). -/
def inev_pre_score (check : Interv → SolverResult) (scm : SCM)
    (goal : GoalPredicate) (interv : Interv) (base : SolverResult) : ℚ :=
  if active_controls_on_path scm goal = 0 ∧ base.status = SolverStatus.sat then
    max (inev_boost1 check scm interv base) (8/10)
  else inev_boost1 check scm interv base

/-- `CausalSolver.compute_inevitability` (solver_engine.py lines 236-323),
parametrised by the solver call.  Returned `score` is `round(score, 2)` of
the pre-rounding score, while `is_inevitable` compares the UN-rounded
score with the threshold (line 319 vs line 320 of the source). -/
def compute_inevitability_with (check : Interv → SolverResult) (scm : SCM)
    (goal : GoalPredicate) (interv : Interv) : InevitabilityResult :=
  let base := check interv
  if base.status = SolverStatus.unsat then
    { goal_id := goal.id, goal_name := goal.name, score := 0,
      is_inevitable := false, solver_result := base }
  else
    let identities := scm.graph.nodes.filter (fun n => n.type = NodeType.identity)
    if identities.isEmpty then
      { goal_id := goal.id, goal_name := goal.name,
        score := if base.status = SolverStatus.sat then 1 else 0,
        is_inevitable := base.status = SolverStatus.sat,
        solver_result := base }
    else
      let score := inev_pre_score check scm goal interv base
      { goal_id := goal.id, goal_name := goal.name,
        score := py_round score 2,
        is_inevitable := decide (score ≥ goal.threshold),
        solver_result := base }

/-- The concrete engine: `compute_inevitability` with the Z3-backed
`check_satisfiability` of this SCM and goal. -/
def compute_inevitability (scm : SCM) (goal : GoalPredicate)
    (interv : Interv) : InevitabilityResult :=
  compute_inevitability_with (check_satisfiability scm goal) scm goal interv

/-! ## Rounding lemmas -/

/-- `py_round_int` at a point whose fractional part exceeds 1/2 rounds up. -/
lemma py_round_int_of_floor (x : ℚ) (n : ℤ) (hn : Int.floor x = n)
    (h : 1/2 < x - n) : py_round_int x = n + 1 := by
  unfold py_round_int
  rw [hn, if_neg (by linarith), if_pos h]

/-- `py_round_int` of a non-negative rational is non-negative. -/
lemma py_round_int_nonneg (x : ℚ) (hx : 0 ≤ x) : 0 ≤ py_round_int x := by
  have hf : (0 : ℤ) ≤ Int.floor x := Int.floor_nonneg.mpr hx
  unfold py_round_int
  split_ifs <;> omega

/-- `py_round_int` never exceeds an integer upper bound of its argument. -/
lemma py_round_int_le (x : ℚ) (B : ℤ) (h : x ≤ B) : py_round_int x ≤ B := by
  have hfB : Int.floor x ≤ B := by
    have h1 := Int.floor_le_floor h
    simpa using h1
  unfold py_round_int
  split_ifs with h1 h2 h3
  · exact hfB
  · -- fractional part strictly above 1/2: the floor is strictly below B
    have hx : (Int.floor x : ℚ) + 1/2 < x := by linarith
    have hq : (Int.floor x : ℚ) < (B : ℚ) := by
      have hxB : x ≤ (B : ℚ) := h
      linarith
    have hz : Int.floor x < B := by exact_mod_cast hq
    omega
  · exact hfB
  · -- exact tie at 1/2 rounding up: again the floor is strictly below B
    have hx : (Int.floor x : ℚ) + 1/2 ≤ x := by linarith
    have hq : (Int.floor x : ℚ) < (B : ℚ) := by
      have hxB : x ≤ (B : ℚ) := h
      linarith
    have hz : Int.floor x < B := by exact_mod_cast hq
    omega

/-- `round(x, d)` of a non-negative rational is non-negative. -/
lemma py_round_nonneg (x : ℚ) (d : ℕ) (hx : 0 ≤ x) : 0 ≤ py_round x d := by
  unfold py_round
  have h10 : (0:ℚ) < (10:ℚ) ^ d := by positivity
  have := py_round_int_nonneg (x * (10:ℚ)^d) (by positivity)
  have : (0:ℚ) ≤ (py_round_int (x * (10:ℚ)^d) : ℚ) := by exact_mod_cast this
  positivity

/-- `round(x, d)` of a rational `≤ 1` stays `≤ 1`. -/
lemma py_round_le_one (x : ℚ) (d : ℕ) (hx : x ≤ 1) : py_round x d ≤ 1 := by
  unfold py_round
  have h10 : (0:ℚ) < (10:ℚ) ^ d := by positivity
  have hb : x * (10:ℚ)^d ≤ ((10 ^ d : ℤ) : ℚ) := by
    push_cast
    nlinarith
  have := py_round_int_le (x * (10:ℚ)^d) (10 ^ d) hb
  have hc : (py_round_int (x * (10:ℚ)^d) : ℚ) ≤ ((10 ^ d : ℤ) : ℚ) := by exact_mod_cast this
  rw [div_le_one h10]
  push_cast at hc ⊢
  exact hc

/-! ## Bounds on the pre-rounding inevitability score -/

/-- With at least one identity the pre-rounding score of
`compute_inevitability` is in `[0, 1]`: the achievable fraction is a
fraction, and both structural boosts (0.3 and 0.8) stay within the unit
interval. -/
lemma inev_pre_score_bounds (check : Interv → SolverResult) (scm : SCM)
    (goal : GoalPredicate) (interv : Interv) (base : SolverResult)
    (h : (scm.graph.nodes.filter (fun n => n.type = NodeType.identity)).isEmpty = false) :
    0 ≤ inev_pre_score check scm goal interv base ∧
      inev_pre_score check scm goal interv base ≤ 1 := by
  have hne : scm.graph.nodes.filter (fun n => n.type = NodeType.identity) ≠ [] := by
    intro hcon
    rw [hcon] at h
    simp at h
  have hlen : 0 < (scm.graph.nodes.filter (fun n => n.type = NodeType.identity)).length :=
    List.length_pos.mpr hne
  have hlenQ : (0:ℚ) < ((scm.graph.nodes.filter (fun n => n.type = NodeType.identity)).length : ℚ) := by
    exact_mod_cast hlen
  have hcount : achievable_count check interv
      (scm.graph.nodes.filter (fun n => n.type = NodeType.identity))
      ≤ (scm.graph.nodes.filter (fun n => n.type = NodeType.identity)).length :=
    List.countP_le_length _
  have h0 : (0:ℚ) ≤ (achievable_count check interv
      (scm.graph.nodes.filter (fun n => n.type = NodeType.identity)) : ℚ) /
      ((scm.graph.nodes.filter (fun n => n.type = NodeType.identity)).length : ℚ) := by
    positivity
  have h1 : (achievable_count check interv
      (scm.graph.nodes.filter (fun n => n.type = NodeType.identity)) : ℚ) /
      ((scm.graph.nodes.filter (fun n => n.type = NodeType.identity)).length : ℚ) ≤ 1 := by
    rw [div_le_one hlenQ]
    exact_mod_cast hcount
  have hb : 0 ≤ inev_boost1 check scm interv base ∧ inev_boost1 check scm interv base ≤ 1 := by
    unfold inev_boost1 inev_fraction
    split_ifs
    · exact ⟨le_max_of_le_left h0, max_le h1 (by norm_num)⟩
    · exact ⟨h0, h1⟩
  unfold inev_pre_score
  split_ifs
  · exact ⟨le_max_of_le_left hb.1, max_le hb.2 (by norm_num)⟩
  · exact hb

/-! ## Claim C3 — score bounds and the threshold comparison -/

/-- **C3 (amended).** For every solver backend, SCM, goal and intervention
map, the returned score lies in `[0, 1]`; and `is_inevitable` is true iff
the base check is not Unsat and — when there is no identity node — the base
status is Sat, otherwise the PRE-rounding boosted score reaches the
threshold.  (The claim's comparison against the returned rounded score is
refuted by `inevitability_rounded_threshold_counterexample`: line 320 of
solver_engine.py compares the un-rounded score while line 319 stores the
rounded one.) -/
theorem inevitability_score_bounds_and_threshold
    (check : Interv → SolverResult) (scm : SCM) (goal : GoalPredicate)
    (interv : Interv) :
    0 ≤ (compute_inevitability_with check scm goal interv).score ∧
    (compute_inevitability_with check scm goal interv).score ≤ 1 ∧
    ((compute_inevitability_with check scm goal interv).is_inevitable = true ↔
      ((check interv).status ≠ SolverStatus.unsat ∧
        if (scm.graph.nodes.filter (fun n => n.type = NodeType.identity)).isEmpty then
          (check interv).status = SolverStatus.sat
        else
          inev_pre_score check scm goal interv (check interv) ≥ goal.threshold)) := by
  unfold compute_inevitability_with
  by_cases hU : (check interv).status = SolverStatus.unsat
  · simp [hU]
  · rcases hE : (scm.graph.nodes.filter (fun n => n.type = NodeType.identity)).isEmpty with _ | _
    · have hb := inev_pre_score_bounds check scm goal interv (check interv) hE
      have h0 := py_round_nonneg (inev_pre_score check scm goal interv (check interv)) 2 hb.1
      have h1 := py_round_le_one (inev_pre_score check scm goal interv (check interv)) 2 hb.2
      simp only [hU, hE, Bool.false_eq_true, if_false, reduceIte]
      refine ⟨h0, h1, ?_⟩
      rw [decide_eq_true_iff]
      constructor
      · intro hth
        exact ⟨hU, hth⟩
      · intro hth
        exact hth.2
    · simp only [hU, hE, if_true, reduceIte]
      constructor
      · split_ifs <;> norm_num
      · constructor
        · split_ifs <;> norm_num
        · rw [decide_eq_true_iff]
          constructor
          · intro hs
            exact ⟨hU, hs⟩
          · intro hs
            exact hs.2

/-- The SCM refuting the rounded-threshold reading of C3: three identities
`I1 I2 I3`, one target asset `t` reachable from `I1` and `I2` only, and one
inactive control `cX` guarding `t` (so the 0.8 boost does not apply). -/
def scm_c3 : SCM :=
  { graph := { nodes := [ { id := "I1", type := NodeType.identity, name := "I1" },
                          { id := "I2", type := NodeType.identity, name := "I2" },
                          { id := "I3", type := NodeType.identity, name := "I3" },
                          { id := "t", type := NodeType.asset, name := "t" },
                          { id := "cX", type := NodeType.control, name := "cX",
                            control_state := some ControlState.inactive } ],
               edges := [ { source := "I1", target := "t", edge_type := EdgeType.access },
                          { source := "I2", target := "t", edge_type := EdgeType.access },
                          { source := "cX", target := "t", edge_type := EdgeType.control } ] },
    equations := [ { target_variable := "t", parent_variables := ["I1", "I2"],
                     negated_parents := ["cX"] } ] }

/-- The goal for the C3 counterexample: target `t`, threshold 0.67. -/
def goal_c3 : GoalPredicate :=
  { id := "g3", name := "g3", target_assets := ["t"], threshold := 67/100 }

/-- **C3 (counterexample).** On `scm_c3`/`goal_c3` exactly 2 of 3
identities reach the goal, so the un-rounded score is 2/3 < 0.67 and
`is_inevitable` is false, yet the recorded rounded score is
`round(2/3, 2) = 0.67 ≥ threshold`.  Hence `is_inevitable` is NOT
equivalent to (returned score ≥ threshold). -/
theorem inevitability_rounded_threshold_counterexample :
    (compute_inevitability scm_c3 goal_c3 []).score = 67/100 ∧
    (compute_inevitability scm_c3 goal_c3 []).score ≥ goal_c3.threshold ∧
    (compute_inevitability scm_c3 goal_c3 []).is_inevitable = false := by
  have hbase : (check_satisfiability scm_c3 goal_c3 []).status = SolverStatus.sat := by decide
  have hach : achievable_count (check_satisfiability scm_c3 goal_c3) []
      (scm_c3.graph.nodes.filter (fun n => n.type = NodeType.identity)) = 2 := by decide
  have hacop : active_controls_on_path scm_c3 goal_c3 = 1 := by decide
  have hlen : (scm_c3.graph.nodes.filter (fun n => n.type = NodeType.identity)).length = 3 := by
    decide
  have hne : (scm_c3.graph.nodes.filter (fun n => n.type = NodeType.identity)).isEmpty
      = false := by decide
  have hpre : inev_pre_score (check_satisfiability scm_c3 goal_c3) scm_c3 goal_c3 []
      (check_satisfiability scm_c3 goal_c3 []) = 2/3 := by
    unfold inev_pre_score inev_boost1 inev_fraction
    simp only [hach, hlen, hbase, hacop]
    norm_num
  have hround : py_round (2/3) 2 = 67/100 := by
    unfold py_round
    rw [show ((2:ℚ)/3 * (10:ℚ)^2) = 200/3 by norm_num]
    rw [py_round_int_of_floor (200/3) 66 (by rw [Int.floor_eq_iff]; norm_num) (by norm_num)]
    norm_num
  unfold compute_inevitability compute_inevitability_with
  simp only [hbase, hne, hpre, hround]
  rw [if_neg (show ¬ (SolverStatus.sat = SolverStatus.unsat) by decide)]
  simp only [Bool.false_eq_true, if_false]
  refine ⟨trivial, by norm_num [goal_c3], decide_eq_false (by norm_num [goal_c3])⟩

/-! ## Claim C1 — a timed-out base check is scored 0.0, not 1.0 -/

/-- A solver backend whose every call times out (Z3 returning neither sat
nor unsat within `timeout_ms` maps to status TIMEOUT, solver_engine.py
lines 220-224). -/
def timeout_check : Interv → SolverResult :=
  fun _ => { status := SolverStatus.timeout }

/-- The SCM for the C1 evaluation: a single asset, no identities. -/
def scm_c1 : SCM :=
  { graph := { nodes := [ { id := "t", type := NodeType.asset, name := "t" } ] } }

/-- The goal for the C1 evaluation. -/
def goal_c1 : GoalPredicate := { id := "exfil", name := "exfil", target_assets := ["t"] }

/-- **C1 (code evaluated at the failing input).** When the base solver call
returns Timeout on an SCM with no identity nodes, `compute_inevitability`
returns score 0.0 and `is_inevitable = false` (the Timeout is handled like
"not Sat", solver_engine.py line 276), with the Timeout status recorded —
NOT the conservative score 1.0 the claim requires. -/
theorem compute_inevitability_timeout_eval :
    (compute_inevitability_with timeout_check scm_c1 goal_c1 []).score = 0 ∧
    (compute_inevitability_with timeout_check scm_c1 goal_c1 []).is_inevitable = false ∧
    (compute_inevitability_with timeout_check scm_c1 goal_c1 []).solver_result.status
      = SolverStatus.timeout ∧
    ¬ (compute_inevitability_with timeout_check scm_c1 goal_c1 []).score = 1 := by
  have hE : (scm_c1.graph.nodes.filter (fun n => n.type = NodeType.identity)).isEmpty
      = true := by decide
  unfold compute_inevitability_with
  simp only [timeout_check, hE, if_true]
  refine ⟨?_, ?_, ?_, ?_⟩ <;>
    rw [if_neg (show ¬ (SolverStatus.timeout = SolverStatus.unsat) by decide)] <;>
    simp

/-! ## Claim C10 — empty goals are unsatisfiable and score zero -/

/-- **C10.** A goal with no target assets and no required conditions
encodes to the constant `False` (solver_engine.py lines 162-163), so
`check_satisfiability` returns Unsat under every intervention map and
`compute_inevitability` returns score 0.0 with `is_inevitable = false`. -/
theorem empty_goal_unsat_and_zero_score (scm : SCM) (goal : GoalPredicate)
    (interv : Interv) (h1 : goal.target_assets = [])
    (h2 : goal.required_conditions = []) :
    (check_satisfiability scm goal interv).status = SolverStatus.unsat ∧
    (compute_inevitability scm goal interv).score = 0 ∧
    (compute_inevitability scm goal interv).is_inevitable = false := by
  have hgoal : ∀ a, goal_holds goal a = false := by
    intro a
    unfold goal_holds
    rw [h1, h2]
    simp
  have hsat : ∀ a, satisfies scm goal interv a = false := by
    intro a
    unfold satisfies
    rw [hgoal a]
    simp
  have hstatus : check_satisfiability scm goal interv = { status := SolverStatus.unsat } := by
    unfold check_satisfiability
    rw [if_neg]
    intro hany
    rw [List.any_eq_true] at hany
    obtain ⟨a, _, ha⟩ := hany
    rw [hsat a] at ha
    exact Bool.false_ne_true ha
  refine ⟨by rw [hstatus], ?_, ?_⟩ <;>
    · unfold compute_inevitability compute_inevitability_with
      rw [hstatus]
      simp

/-- Witness for C10 at a concrete input: the empty goal on `scm_c1`. -/
def goal_c10 : GoalPredicate := { id := "g10", name := "g10" }

/-- Witness theorem for `empty_goal_unsat_and_zero_score`. -/
theorem empty_goal_unsat_and_zero_score_witness :
    (check_satisfiability scm_c1 goal_c10 []).status = SolverStatus.unsat ∧
    (compute_inevitability scm_c1 goal_c10 []).score = 0 ∧
    (compute_inevitability scm_c1 goal_c10 []).is_inevitable = false :=
  empty_goal_unsat_and_zero_score scm_c1 goal_c10 [] rfl rfl

/-! ## MCS extraction (src/backend/mcs_extractor.py)

`MCSElement` omits `blocked_value` (never set away from its default);
`MCSSet` omits the uuid `mcs_id`; `MCSResult` omits
`computation_time_ms`. -/

/-- `models.MCSElement` (models.py lines 220-226). -/
structure MCSElement where
  control_id : String
  control_name : String
  control_type : Option String := none
  remediation_action : String := ""
  estimated_cost : ℚ := 0
deriving DecidableEq, Repr

/-- `models.MCSSet` (models.py lines 229-235). -/
structure MCSSet where
  elements : List MCSElement := []
  cardinality : ℕ := 0
  total_cost : ℚ := 0
  feasibility : String := "immediate"
  validated : Bool := false
deriving DecidableEq, Repr

/-- `models.MCSResult` (models.py lines 238-243). -/
structure MCSResult where
  goal_id : String
  goal_name : String
  mcs_sets : List MCSSet := []
  algorithm : String := "greedy"
deriving DecidableEq, Repr

/-- The `MCSSet` built for an emitted candidate list (mcs_extractor.py
lines 112-128, identically lines 181-197): one element per control with
its annual cost (0 when unset), `feasibility = "immediate"` iff every cost
is 0 or unset, `validated = True`. -/
def mk_mcs_set (cs : List InfraNode) : MCSSet :=
  { elements := cs.map (fun c =>
      { control_id := c.id, control_name := c.name, control_type := c.control_type,
        remediation_action := "Enforce " ++ c.name,
        estimated_cost := c.annual_cost.getD 0 }),
    cardinality := cs.length,
    total_cost := (cs.map (fun c => c.annual_cost.getD 0)).sum,
    feasibility :=
      if cs.all (fun c => c.annual_cost = some 0 ∨ c.annual_cost = none) then "immediate"
      else "budgeted",
    validated := true }

/-- The greedy impact of one control (mcs_extractor.py lines 81-90):
score with the control forced off minus score with it forced on. -/
def control_impact (scm : SCM) (goal : GoalPredicate) (c : InfraNode) : ℚ :=
  (compute_inevitability scm goal [(c.id, false)]).score
    - (compute_inevitability scm goal [(c.id, true)]).score

/-- The greedy accumulation loop (mcs_extractor.py lines 100-130): walk the
impact-sorted controls, forcing each candidate to True; stop with a break
when `max_cardinality` candidates were already taken; emit a single MCS and
stop as soon as the goal goes Unsat. -/
def greedy_loop (scm : SCM) (goal : GoalPredicate) (maxCard : ℕ) :
    List (InfraNode × ℚ) → List InfraNode → List MCSSet
  | [], _ => []
  | (c, _) :: rest, cand =>
    if maxCard ≤ cand.length then []
    else if (check_satisfiability scm goal
        (mk_true_interv ((cand ++ [c]).map (fun x => x.id)))).status
        = SolverStatus.unsat then
      [mk_mcs_set (cand ++ [c])]
    else greedy_loop scm goal maxCard rest (cand ++ [c])

/-- `MCSExtractor._greedy_mcs` (mcs_extractor.py lines 65-137): score every
control, sort by impact descending (Python's stable sort with
`reverse=True`), then run the accumulation loop. -/
def greedy_mcs (scm : SCM) (goal : GoalPredicate) (controls : List InfraNode)
    (maxCard : ℕ) : List MCSSet :=
  greedy_loop scm goal maxCard
    ((controls.map (fun c => (c, control_impact scm goal c))).mergeSort
      (fun a b => b.2 ≤ a.2))
    []

/-- `itertools.combinations`: all `k`-element sublists in input order. -/
def combinations : ℕ → List InfraNode → List (List InfraNode)
  | 0, _ => [[]]
  | _ + 1, [] => []
  | k + 1, x :: xs => (combinations k xs).map (fun t => x :: t) ++ combinations (k + 1) xs

/-- The per-removal ids of the exact minimality check (mcs_extractor.py
line 173): `{c.id: True for c in combo if c.id != ctrl.id}`. -/
def subset_ids (combo : List InfraNode) (ctrl : InfraNode) : List String :=
  (combo.filter (fun c => c.id ≠ ctrl.id)).map (fun c => c.id)

/-- The exact minimality check (mcs_extractor.py lines 170-177): every
singleton removal must NOT be Unsat. -/
def exact_is_minimal (scm : SCM) (goal : GoalPredicate)
    (combo : List InfraNode) : Bool :=
  combo.all (fun ctrl =>
    ¬ (check_satisfiability scm goal (mk_true_interv (subset_ids combo ctrl))).status
      = SolverStatus.unsat)

/-- One step of `_exact_mcs` over a candidate combination (mcs_extractor.py
lines 158-197): prune supersets of recorded MCSs; otherwise test blocking
and minimality; record and emit when both hold. -/
def exact_step (scm : SCM) (goal : GoalPredicate)
    (acc : List MCSSet × List (List String)) (combo : List InfraNode) :
    List MCSSet × List (List String) :=
  if acc.2.any (fun known => known.all (fun k => k ∈ combo.map (fun c => c.id))) then acc
  else if (check_satisfiability scm goal
      (mk_true_interv (combo.map (fun c => c.id)))).status = SolverStatus.unsat then
    if exact_is_minimal scm goal combo then
      (acc.1 ++ [mk_mcs_set combo], acc.2 ++ [combo.map (fun c => c.id)])
    else acc
  else acc

/-- `MCSExtractor._exact_mcs` (mcs_extractor.py lines 141-199): enumerate
combinations of sizes `1 .. min(max_cardinality, len(controls))` in
increasing size. -/
def exact_mcs (scm : SCM) (goal : GoalPredicate) (controls : List InfraNode)
    (maxCard : ℕ) : List MCSSet :=
  (((List.range (min maxCard controls.length)).map (fun i => i + 1)).foldl
    (fun acc size => (combinations size controls).foldl (exact_step scm goal) acc)
    ([], [])).1

/-- `MCSExtractor.extract_mcs` (mcs_extractor.py lines 23-61): empty result
when there are no controls; dispatch on the algorithm string. -/
def extract_mcs (scm : SCM) (goal : GoalPredicate) (maxCard : ℕ)
    (algorithm : String) : MCSResult :=
  if scm.graph.get_controls = [] then
    { goal_id := goal.id, goal_name := goal.name, mcs_sets := [], algorithm := algorithm }
  else if algorithm = "exact" then
    { goal_id := goal.id, goal_name := goal.name,
      mcs_sets := exact_mcs scm goal scm.graph.get_controls maxCard,
      algorithm := algorithm }
  else
    { goal_id := goal.id, goal_name := goal.name,
      mcs_sets := greedy_mcs scm goal scm.graph.get_controls maxCard,
      algorithm := algorithm }

/-- The blocking property of claim C2 for a control-id list. -/
def mcs_blocking (scm : SCM) (goal : GoalPredicate) (ids : List String) : Prop :=
  (check_satisfiability scm goal (mk_true_interv ids)).status = SolverStatus.unsat

/-- The minimality property of claim C2 for a control-id list: every
singleton removal makes the goal satisfiable again. -/
def mcs_minimal (scm : SCM) (goal : GoalPredicate) (ids : List String) : Prop :=
  ∀ cid ∈ ids,
    (check_satisfiability scm goal
      (mk_true_interv (ids.filter (fun x => x ≠ cid)))).status = SolverStatus.sat

/-- The embedded solver decides: its status is Sat or Unsat. -/
lemma check_satisfiability_status (scm : SCM) (goal : GoalPredicate)
    (interv : Interv) :
    (check_satisfiability scm goal interv).status = SolverStatus.sat ∨
    (check_satisfiability scm goal interv).status = SolverStatus.unsat := by
  unfold check_satisfiability
  split_ifs <;> simp

/-- Filtering controls by id then projecting ids is projecting then
filtering. -/
lemma subset_ids_eq_filter (combo : List InfraNode) (ctrl : InfraNode) :
    subset_ids combo ctrl
      = (combo.map (fun c => c.id)).filter (fun x => x ≠ ctrl.id) := by
  unfold subset_ids
  induction combo with
  | nil => rfl
  | cons c cs ih =>
    simp only [ne_eq, decide_not] at ih ⊢
    by_cases h : c.id = ctrl.id <;> simp [h, ih]

/-- The control ids of an emitted `MCSSet` are the candidate ids. -/
lemma mk_mcs_set_ids (cs : List InfraNode) :
    (mk_mcs_set cs).elements.map (fun e => e.control_id)
      = cs.map (fun c => c.id) := by
  simp [mk_mcs_set, List.map_map]

/-- Both claim properties at once for an id list. -/
def mcs_good (scm : SCM) (goal : GoalPredicate) (S : MCSSet) : Prop :=
  mcs_blocking scm goal (S.elements.map (fun e => e.control_id)) ∧
  mcs_minimal scm goal (S.elements.map (fun e => e.control_id))

/-- An MCSSet emitted by the exact algorithm's guards is blocking and
minimal. -/
lemma mk_mcs_set_good (scm : SCM) (goal : GoalPredicate) (combo : List InfraNode)
    (hblock : (check_satisfiability scm goal
      (mk_true_interv (combo.map (fun c => c.id)))).status = SolverStatus.unsat)
    (hmin : exact_is_minimal scm goal combo = true) :
    mcs_good scm goal (mk_mcs_set combo) := by
  constructor
  · rw [mcs_blocking, mk_mcs_set_ids]
    exact hblock
  · rw [mcs_minimal, mk_mcs_set_ids]
    intro cid hcid
    obtain ⟨ctrl, hctrl, hid⟩ := List.mem_map.mp hcid
    unfold exact_is_minimal at hmin
    rw [List.all_eq_true] at hmin
    have hne := hmin ctrl hctrl
    rw [decide_eq_true_iff] at hne
    rcases check_satisfiability_status scm goal
        (mk_true_interv (subset_ids combo ctrl)) with hs | hs
    · rw [subset_ids_eq_filter, hid] at hs
      exact hs
    · exact absurd hs hne

/-- `exact_step` preserves goodness of everything accumulated. -/
lemma exact_step_preserves (scm : SCM) (goal : GoalPredicate)
    (acc : List MCSSet × List (List String)) (combo : List InfraNode)
    (hacc : ∀ S ∈ acc.1, mcs_good scm goal S) :
    ∀ S ∈ (exact_step scm goal acc combo).1, mcs_good scm goal S := by
  unfold exact_step
  split_ifs with h1 h2 h3
  · exact hacc
  · intro S hS
    rcases List.mem_append.mp hS with hS | hS
    · exact hacc S hS
    · rw [List.mem_singleton] at hS
      subst hS
      exact mk_mcs_set_good scm goal combo h2 h3
  · exact hacc
  · exact hacc

/-- Folding `exact_step` over any combination list preserves goodness. -/
lemma exact_fold_preserves (scm : SCM) (goal : GoalPredicate) :
    ∀ (combos : List (List InfraNode)) (acc : List MCSSet × List (List String)),
      (∀ S ∈ acc.1, mcs_good scm goal S) →
      ∀ S ∈ (combos.foldl (exact_step scm goal) acc).1, mcs_good scm goal S := by
  intro combos
  induction combos with
  | nil => intro acc hacc; exact hacc
  | cons combo combos ih =>
    intro acc hacc
    exact ih _ (exact_step_preserves scm goal acc combo hacc)

/-- Everything emitted by `_exact_mcs` is blocking and minimal. -/
lemma exact_mcs_sound (scm : SCM) (goal : GoalPredicate)
    (controls : List InfraNode) (maxCard : ℕ) :
    ∀ S ∈ exact_mcs scm goal controls maxCard, mcs_good scm goal S := by
  unfold exact_mcs
  generalize (List.range (min maxCard controls.length)).map (fun i => i + 1) = sizes
  have main : ∀ (sizes : List ℕ) (acc : List MCSSet × List (List String)),
      (∀ S ∈ acc.1, mcs_good scm goal S) →
      ∀ S ∈ (sizes.foldl
          (fun acc size => (combinations size controls).foldl (exact_step scm goal) acc)
          acc).1, mcs_good scm goal S := by
    intro sizes
    induction sizes with
    | nil => intro acc hacc; exact hacc
    | cons sz sizes ih =>
      intro acc hacc
      exact ih _ (exact_fold_preserves scm goal (combinations sz controls) acc hacc)
  exact main sizes ([], []) (by intro S hS; simp at hS)

/-- Everything emitted by `_greedy_mcs`'s loop is blocking. -/
lemma greedy_loop_blocking (scm : SCM) (goal : GoalPredicate) (maxCard : ℕ) :
    ∀ (rest : List (InfraNode × ℚ)) (cand : List InfraNode) (ids : List String),
      ids ∈ (greedy_loop scm goal maxCard rest cand).map
          (fun S => S.elements.map (fun e => e.control_id)) →
      mcs_blocking scm goal ids := by
  intro rest
  induction rest with
  | nil =>
    intro cand ids h
    simp [greedy_loop] at h
  | cons p rest ih =>
    intro cand ids h
    obtain ⟨c, imp⟩ := p
    rw [greedy_loop] at h
    split_ifs at h with h1 h2
    · simp at h
    · rw [List.map_singleton, List.mem_singleton] at h
      subst h
      rw [mcs_blocking, mk_mcs_set_ids]
      exact h2
    · exact ih _ _ h

/-! ## Claim C2 — emitted MCS sets: blocking always, minimal for exact -/

/-- **C2 (amended).** Every `MCSSet` emitted by `extract_mcs` satisfies the
blocking property (forcing all its controls True makes
`check_satisfiability` return Unsat), under both algorithms; and every set
emitted by the exact algorithm is additionally minimal (every singleton
removal yields Sat).  Greedy sets need not be minimal
(`greedy_mcs_not_minimal_counterexample`). -/
theorem extract_mcs_blocking_and_exact_minimal (scm : SCM)
    (goal : GoalPredicate) (maxCard : ℕ) (algorithm : String)
    (ids : List String)
    (h : ids ∈ (extract_mcs scm goal maxCard algorithm).mcs_sets.map
        (fun S => S.elements.map (fun e => e.control_id))) :
    mcs_blocking scm goal ids ∧
      (algorithm = "exact" → mcs_minimal scm goal ids) := by
  unfold extract_mcs at h
  split_ifs at h with hc halg
  · simp at h
  · obtain ⟨S, hS, hids⟩ := List.mem_map.mp h
    have hgood := exact_mcs_sound scm goal scm.graph.get_controls maxCard S hS
    subst hids
    exact ⟨hgood.1, fun _ => hgood.2⟩
  · refine ⟨?_, fun he => absurd he halg⟩
    simp only [greedy_mcs] at h
    exact greedy_loop_blocking scm goal maxCard _ _ ids h

set_option maxRecDepth 8000

/-- The control of the greedy counterexample: ACTIVE by default. -/
def ctrl_X : InfraNode :=
  { id := "X", type := NodeType.control, name := "X",
    control_state := some ControlState.active }

/-- Greedy counterexample SCM: one attacker, one target `t`, one ACTIVE
control `X` blocking `t`. -/
def scm_c2x : SCM :=
  { graph := { nodes := [ { id := "atk", type := NodeType.identity, name := "atk" },
                          { id := "t", type := NodeType.asset, name := "t" },
                          ctrl_X ],
               edges := [ { source := "atk", target := "t", edge_type := EdgeType.access },
                          { source := "X", target := "t", edge_type := EdgeType.control } ] },
    equations := [ { target_variable := "t", parent_variables := ["atk"],
                     negated_parents := ["X"] } ] }

/-- Goal of the greedy counterexample. -/
def goal_c2x : GoalPredicate := { id := "g2x", name := "g2x", target_assets := ["t"] }

/-- **C2 (counterexample).** On `scm_c2x` the greedy algorithm emits the
MCS `{X}` (forcing `X` True is Unsat), but removing `X` — checking with the
empty intervention map — is still Unsat, because `X` is ACTIVE by default
and continues to block the goal.  The claim's minimality requirement
("forcing the set minus c to True makes check_satisfiability return Sat")
therefore fails for greedy-emitted sets. -/
theorem greedy_mcs_not_minimal_counterexample :
    (extract_mcs scm_c2x goal_c2x 5 "greedy").mcs_sets.map
        (fun S => S.elements.map (fun e => e.control_id)) = [["X"]] ∧
    (check_satisfiability scm_c2x goal_c2x
        (mk_true_interv (List.filter (fun x => x ≠ "X") ["X"]))).status
      = SolverStatus.unsat := by
  constructor
  · have h1 : scm_c2x.graph.get_controls = [ctrl_X] := by decide
    unfold extract_mcs
    rw [h1]
    rw [if_neg (by decide : ¬ ([ctrl_X] = ([] : List InfraNode)))]
    rw [if_neg (by decide : ¬ (("greedy" : String) = "exact"))]
    unfold greedy_mcs
    rw [List.map_cons, List.map_nil, List.mergeSort_singleton]
    rw [greedy_loop]
    rw [if_neg (by decide : ¬ (5 ≤ List.length ([] : List InfraNode)))]
    rw [if_pos (by decide : (check_satisfiability scm_c2x goal_c2x
      (mk_true_interv ((([] : List InfraNode) ++ [ctrl_X]).map (fun x => x.id)))).status
        = SolverStatus.unsat)]
    simp [mk_mcs_set_ids, ctrl_X]
  · decide

/-- The control of the C2 witness: INACTIVE by default. -/
def ctrl_Y : InfraNode :=
  { id := "Y", type := NodeType.control, name := "Y",
    control_state := some ControlState.inactive }

/-- Witness SCM for the amended C2: one attacker, one target, one INACTIVE
control `Y` blocking the target. -/
def scm_c2w : SCM :=
  { graph := { nodes := [ { id := "atk", type := NodeType.identity, name := "atk" },
                          { id := "t", type := NodeType.asset, name := "t" },
                          ctrl_Y ],
               edges := [ { source := "atk", target := "t", edge_type := EdgeType.access },
                          { source := "Y", target := "t", edge_type := EdgeType.control } ] },
    equations := [ { target_variable := "t", parent_variables := ["atk"],
                     negated_parents := ["Y"] } ] }

/-- Goal of the C2 witness. -/
def goal_c2w : GoalPredicate := { id := "g2w", name := "g2w", target_assets := ["t"] }

/-- Witness theorem for `extract_mcs_blocking_and_exact_minimal`: the exact
algorithm on `scm_c2w` emits `{Y}`, which is proved blocking and minimal by
the theorem. -/
theorem extract_mcs_blocking_and_exact_minimal_witness :
    mcs_blocking scm_c2w goal_c2w ["Y"] ∧ mcs_minimal scm_c2w goal_c2w ["Y"] := by
  have h : ["Y"] ∈ (extract_mcs scm_c2w goal_c2w 5 "exact").mcs_sets.map
      (fun S => S.elements.map (fun e => e.control_id)) := by decide
  exact ⟨(extract_mcs_blocking_and_exact_minimal scm_c2w goal_c2w 5 "exact" ["Y"] h).1,
         (extract_mcs_blocking_and_exact_minimal scm_c2w goal_c2w 5 "exact" ["Y"] h).2 rfl⟩

/-! ## Theater classifier (src/backend/theater_detector.py) -/

/-- The causal delta of one control (theater_detector.py lines 44-53):
`|score with the control forced off − score with it forced on|`. -/
def theater_delta (scm : SCM) (goal : GoalPredicate) (cid : String) : ℚ :=
  |(compute_inevitability scm goal [(cid, false)]).score
    - (compute_inevitability scm goal [(cid, true)]).score|

/-- `models.ControlClassification` (models.py lines 248-257);
`mcs_membership_count` (never set away from its default) and the free-text
`reason`/`recommendation` strings omitted. -/
structure ControlClassification where
  control_id : String
  control_name : String
  control_type : Option String := none
  classification : DefenseClassification
  causal_contribution_score : ℚ := 0
  annual_cost : ℚ := 0
deriving DecidableEq, Repr

/-- `models.TheaterReport` (models.py lines 260-269). -/
structure TheaterReport where
  goal_id : String
  goal_name : String
  classifications : List ControlClassification := []
  total_controls : ℕ := 0
  critical_count : ℕ := 0
  necessary_count : ℕ := 0
  partial_count : ℕ := 0
  irrelevant_count : ℕ := 0
  total_waste : ℚ := 0
  waste_ratio : ℚ := 0
deriving DecidableEq, Repr

/-- The per-control classification of
`TheaterDetector.classify_controls` (theater_detector.py lines 43-99):
Irrelevant when Δ < 0.01, else Critical when the id is in the passed MCS
membership set, else Necessary when Δ ≥ 0.2, else Partial. -/
def classify_one (scm : SCM) (goal : GoalPredicate) (mcs_ids : List String)
    (ctrl : InfraNode) : ControlClassification :=
  { control_id := ctrl.id, control_name := ctrl.name,
    control_type := ctrl.control_type,
    classification :=
      if theater_delta scm goal ctrl.id < 1/100 then DefenseClassification.irrelevant
      else if ctrl.id ∈ mcs_ids then DefenseClassification.critical
      else if theater_delta scm goal ctrl.id ≥ 2/10 then DefenseClassification.necessary
      else DefenseClassification.partial',
    causal_contribution_score := py_round (theater_delta scm goal ctrl.id) 3,
    annual_cost := ctrl.annual_cost.getD 0 }

/-- `TheaterDetector.classify_controls` (theater_detector.py lines 23-120).
The baseline inevitability computed at line 41 is never consulted by the
classification and is not represented.  `mcs_control_ids = None` in the
source defaults to the empty set, modelled by passing `[]`. -/
def classify_controls (scm : SCM) (goal : GoalPredicate)
    (mcs_ids : List String) : TheaterReport :=
  let classifications := scm.graph.get_controls.map (classify_one scm goal mcs_ids)
  let total_waste :=
    ((classifications.filter
        (fun c => c.classification = DefenseClassification.irrelevant)).map
      (fun c => c.annual_cost)).sum
  let total_spend := (classifications.map (fun c => c.annual_cost)).sum
  { goal_id := goal.id, goal_name := goal.name,
    classifications := classifications,
    total_controls := classifications.length,
    critical_count := classifications.countP
      (fun c => c.classification = DefenseClassification.critical),
    necessary_count := classifications.countP
      (fun c => c.classification = DefenseClassification.necessary),
    partial_count := classifications.countP
      (fun c => c.classification = DefenseClassification.partial'),
    irrelevant_count := classifications.countP
      (fun c => c.classification = DefenseClassification.irrelevant),
    total_waste := total_waste,
    waste_ratio := if 0 < total_spend then py_round (total_waste / total_spend) 3 else 0 }

/-! ## Claim C8 — the classification decision chain -/

/-- **C8.** For every classification entry produced by `classify_controls`,
letting Δ be the absolute difference of the inevitability scores with the
control forced False resp. True: the entry is Irrelevant iff Δ < 0.01;
otherwise Critical iff its id is in the passed MCS membership set;
otherwise Necessary iff Δ ≥ 0.20; otherwise Partial. -/
theorem classify_controls_decision_chain (scm : SCM) (goal : GoalPredicate)
    (mcs_ids : List String) (cc : ControlClassification)
    (h : cc ∈ (classify_controls scm goal mcs_ids).classifications) :
    (cc.classification = DefenseClassification.irrelevant ↔
        theater_delta scm goal cc.control_id < 1/100) ∧
    (cc.classification = DefenseClassification.critical ↔
        (¬ theater_delta scm goal cc.control_id < 1/100 ∧ cc.control_id ∈ mcs_ids)) ∧
    (cc.classification = DefenseClassification.necessary ↔
        (¬ theater_delta scm goal cc.control_id < 1/100 ∧ cc.control_id ∉ mcs_ids ∧
          theater_delta scm goal cc.control_id ≥ 2/10)) ∧
    (cc.classification = DefenseClassification.partial' ↔
        (¬ theater_delta scm goal cc.control_id < 1/100 ∧ cc.control_id ∉ mcs_ids ∧
          ¬ theater_delta scm goal cc.control_id ≥ 2/10)) := by
  simp only [classify_controls] at h
  obtain ⟨ctrl, _, rfl⟩ := List.mem_map.mp h
  have hcls : (classify_one scm goal mcs_ids ctrl).classification =
      (if theater_delta scm goal ctrl.id < 1/100 then DefenseClassification.irrelevant
       else if ctrl.id ∈ mcs_ids then DefenseClassification.critical
       else if theater_delta scm goal ctrl.id ≥ 2/10 then DefenseClassification.necessary
       else DefenseClassification.partial') := rfl
  have hid : (classify_one scm goal mcs_ids ctrl).control_id = ctrl.id := rfl
  rw [hcls, hid]
  split_ifs with h1 h2 h3 <;> simp_all

/-- Witness theorem for `classify_controls_decision_chain` at a concrete
input: the ACTIVE blocking control `X` of `scm_c2x` classified with MCS
membership `{X}`. -/
theorem classify_controls_decision_chain_witness :
    ((classify_one scm_c2x goal_c2x ["X"] ctrl_X).classification
        = DefenseClassification.irrelevant ↔
      theater_delta scm_c2x goal_c2x
          (classify_one scm_c2x goal_c2x ["X"] ctrl_X).control_id < 1/100) ∧
    ((classify_one scm_c2x goal_c2x ["X"] ctrl_X).classification
        = DefenseClassification.critical ↔
      (¬ theater_delta scm_c2x goal_c2x
          (classify_one scm_c2x goal_c2x ["X"] ctrl_X).control_id < 1/100 ∧
        (classify_one scm_c2x goal_c2x ["X"] ctrl_X).control_id ∈ ["X"])) ∧
    ((classify_one scm_c2x goal_c2x ["X"] ctrl_X).classification
        = DefenseClassification.necessary ↔
      (¬ theater_delta scm_c2x goal_c2x
          (classify_one scm_c2x goal_c2x ["X"] ctrl_X).control_id < 1/100 ∧
        (classify_one scm_c2x goal_c2x ["X"] ctrl_X).control_id ∉ ["X"] ∧
        theater_delta scm_c2x goal_c2x
          (classify_one scm_c2x goal_c2x ["X"] ctrl_X).control_id ≥ 2/10)) ∧
    ((classify_one scm_c2x goal_c2x ["X"] ctrl_X).classification
        = DefenseClassification.partial' ↔
      (¬ theater_delta scm_c2x goal_c2x
          (classify_one scm_c2x goal_c2x ["X"] ctrl_X).control_id < 1/100 ∧
        (classify_one scm_c2x goal_c2x ["X"] ctrl_X).control_id ∉ ["X"] ∧
        ¬ theater_delta scm_c2x goal_c2x
          (classify_one scm_c2x goal_c2x ["X"] ctrl_X).control_id ≥ 2/10)) := by
  apply classify_controls_decision_chain scm_c2x goal_c2x ["X"]
  simp only [classify_controls]
  exact List.mem_map.mpr ⟨ctrl_X, by decide, rfl⟩

/-! ## Counterfactual engine (src/backend/counterfactual.py) -/

/-- `py_round_int 0 = 0`. -/
lemma py_round_int_zero : py_round_int 0 = 0 := by
  unfold py_round_int
  norm_num

/-- `round(0, d) = 0`. -/
lemma py_round_zero (d : ℕ) : py_round 0 d = 0 := by
  unfold py_round
  rw [zero_mul, py_round_int_zero]
  norm_num

/-- The result dict of `CounterfactualEngine.what_if` (counterfactual.py
lines 43-54); the free-text `explanation` and the echoed
`interventions_applied` are omitted. -/
structure WhatIfResult where
  goal : String
  before : ℚ
  after : ℚ
  delta : ℚ
  direction : String
  is_inevitable_before : Bool
  is_inevitable_after : Bool
  crossed_threshold : Bool
deriving DecidableEq, Repr

/-- `CounterfactualEngine.what_if` (counterfactual.py lines 20-54):
baseline inevitability under the baseline interventions (`None` defaults
to the empty map), "after" under the baseline merged with the query
interventions, `delta = round(after - before, 3)` with the direction
computed from the un-rounded delta. -/
def what_if (scm : SCM) (goal : GoalPredicate) (interventions : Interv)
    (baseline_interventions : Option Interv) : WhatIfResult :=
  let bi := baseline_interventions.getD []
  let baseline := compute_inevitability scm goal bi
  let merged := interventions.foldl (fun m p => iset m p.1 p.2) bi
  let after := compute_inevitability scm goal merged
  { goal := goal.name,
    before := baseline.score,
    after := after.score,
    delta := py_round (after.score - baseline.score) 3,
    direction :=
      if after.score - baseline.score > 0 then "INCREASED"
      else if after.score - baseline.score < 0 then "DECREASED"
      else "UNCHANGED",
    is_inevitable_before := baseline.is_inevitable,
    is_inevitable_after := after.is_inevitable,
    crossed_threshold := baseline.is_inevitable != after.is_inevitable }

/-! ## Claim C9 — `what_if` with the empty intervention map -/

/-- **C9.** For every SCM and goal, `what_if` with the empty intervention
map and no baseline reports before and after scores both equal to the
score of `compute_inevitability` with no interventions, delta 0, direction
UNCHANGED, and `crossed_threshold = false`. -/
theorem what_if_empty_is_identity (scm : SCM) (goal : GoalPredicate) :
    (what_if scm goal [] none).before = (compute_inevitability scm goal []).score ∧
    (what_if scm goal [] none).after = (compute_inevitability scm goal []).score ∧
    (what_if scm goal [] none).delta = 0 ∧
    (what_if scm goal [] none).direction = "UNCHANGED" ∧
    (what_if scm goal [] none).crossed_threshold = false := by
  unfold what_if
  simp only [Option.getD_none, List.foldl_nil, sub_self, py_round_zero,
    lt_irrefl, gt_iff_lt, if_false, bne_self_eq_false]
  norm_num

/-! ## Custom-graph validation (src/backend/api.py) -/

/-- A raw node dict of a `CustomAnalysisRequest`: only the keys consulted
by `_validate_custom_graph` are modelled (`id`, `name`; `type` is only
used for the non-blocking controls warning, api.py lines 280-283). -/
structure RawNode where
  id : Option String := none
  name : Option String := none
deriving DecidableEq, Repr

/-- A raw edge dict of a `CustomAnalysisRequest`. -/
structure RawEdge where
  source : Option String := none
  target : Option String := none
deriving DecidableEq, Repr

/-- A raw goal dict of a `CustomAnalysisRequest`.  `_validate_custom_graph`
never reads any key of a goal — in particular not `target_assets`. -/
structure RawGoal where
  name : Option String := none
  target_assets : List String := []
deriving DecidableEq, Repr

/-- `n.get("id", n.get("name", ""))` (api.py line 262). -/
def node_key (n : RawNode) : String := n.id.getD (n.name.getD "")

/-- The edge-endpoint loop of `_validate_custom_graph` (api.py lines
265-277): the first unresolved source or target endpoint raises an
HTTP 400 (`InvalidGraph`), modelled as `Except.error`. -/
def validate_edges (node_ids : List String) : List RawEdge → Except String Unit
  | [] => Except.ok ()
  | e :: es =>
    if (e.source.getD "") ∉ node_ids then
      Except.error "edge source does not match any node ID"
    else if (e.target.getD "") ∉ node_ids then
      Except.error "edge target does not match any node ID"
    else validate_edges node_ids es

/-- `_validate_custom_graph` (api.py lines 255-283): reject an empty node
list, an empty goal list, and unresolved edge endpoints.  (The missing
controls check at lines 280-283 deliberately does not block.) -/
def validate_custom_graph (nodes : List RawNode) (edges : List RawEdge)
    (goals : List RawGoal) : Except String Unit :=
  if nodes = [] then Except.error "At least one node is required."
  else if goals = [] then Except.error "At least one goal is required."
  else validate_edges (nodes.map node_key) edges

/-! ## Claim C6 — what the custom-request validation checks -/

/-- The edge loop accepts exactly when every endpoint resolves. -/
lemma validate_edges_ok_iff (node_ids : List String) :
    ∀ edges : List RawEdge,
      validate_edges node_ids edges = Except.ok () ↔
        ∀ e ∈ edges, (e.source.getD "") ∈ node_ids ∧ (e.target.getD "") ∈ node_ids := by
  intro edges
  induction edges with
  | nil => simp [validate_edges]
  | cons e es ih =>
    unfold validate_edges
    by_cases h1 : (e.source.getD "") ∈ node_ids
    · by_cases h2 : (e.target.getD "") ∈ node_ids
      · rw [if_neg (not_not_intro h1), if_neg (not_not_intro h2), ih]
        constructor
        · intro hall e' he'
          rcases List.mem_cons.mp he' with he' | he'
          · subst he'
            exact ⟨h1, h2⟩
          · exact hall e' he'
        · intro hall e' he'
          exact hall e' (List.mem_cons_of_mem e he')
      · rw [if_neg (not_not_intro h1), if_pos h2]
        constructor
        · intro hcon
          simp at hcon
        · intro hall
          exact absurd (hall e (List.mem_cons_self e es)).2 h2
    · rw [if_pos h1]
      constructor
      · intro hcon
        simp at hcon
      · intro hall
        exact absurd (hall e (List.mem_cons_self e es)).1 h1

/-- **C6 (amended).** `_validate_custom_graph` accepts a request exactly
when the node list and goal list are non-empty and every edge endpoint
resolves against a node id (or name fallback).  In particular it performs
NO check on the goals' `target_assets`
(`validate_accepts_unresolved_goal_target`). -/
theorem validate_custom_graph_checks_iff (nodes : List RawNode)
    (edges : List RawEdge) (goals : List RawGoal) :
    validate_custom_graph nodes edges goals = Except.ok () ↔
      (nodes ≠ [] ∧ goals ≠ [] ∧
        ∀ e ∈ edges, (e.source.getD "") ∈ nodes.map node_key ∧
          (e.target.getD "") ∈ nodes.map node_key) := by
  unfold validate_custom_graph
  split_ifs with h1 h2
  · simp [h1]
  · simp [h1, h2]
  · rw [validate_edges_ok_iff]
    simp [h1, h2]

/-- The C6 counterexample request: one node `a`, no edges, one goal whose
target asset `missing` resolves to no node. -/
def nodes_c6 : List RawNode := [{ id := some "a", name := some "A" }]

/-- The goal list of the C6 counterexample. -/
def goals_c6 : List RawGoal := [{ name := some "g", target_assets := ["missing"] }]

/-- **C6 (counterexample).** The validation accepts the request although
the goal's target asset id `missing` resolves to no node — the claimed
rejection with `InvalidGraph` does not happen. -/
theorem validate_accepts_unresolved_goal_target :
    validate_custom_graph nodes_c6 [] goals_c6 = Except.ok () ∧
    "missing" ∉ nodes_c6.map node_key := by
  constructor
  · rfl
  · decide

/-! ## Claim C7 — `InfraEdge` has no `exploit_probability` field -/

/-- The C7 failing input: an `InfraEdge` constructed without
`exploit_probability`. -/
def edge_c7 : InfraEdge := { source := "a", target := "b", edge_type := EdgeType.access }

/-- **C7 (code evaluated at the failing input).** Reading
`exploit_probability` on an `InfraEdge` does NOT succeed — models.py
declares no such field, so the read raises `AttributeError` instead of
returning the claimed default 0.5 — while reading the declared field
`weight` does succeed. -/
theorem infra_edge_exploit_probability_read_fails :
    infra_edge_getattr_succeeds edge_c7 "exploit_probability" = false ∧
    infra_edge_getattr_succeeds edge_c7 "weight" = true := by
  decide

/-! ## Probability layer (src/backend/probability_engine.py)

The engine reads three numeric fields that `models.py` does not declare
(`InfraNode.effectiveness`, `InfraNode.bypass_probability`,
`InfraEdge.exploit_probability`) although `breach_data.py` supplies them to
every constructor and the spec documents them (spec §3); this layer is
therefore embedded over node/edge types carrying those fields.

`ProbNode`/`ProbEdge` below are the data model of this layer.  The fields
marked "Modelled from the spec" are the v2.0 fields `effectiveness`,
`bypass_probability` and `exploit_probability` missing from
`src/backend/models.py`: ranges `[0,1]`, edge default 0.5, per spec §3.

`rank_control_impact` mutates `Control.control_state` on the shared node
objects and restores it; the mutable state is modelled as an explicit
overlay `CtrlState : String → Option ControlState` threaded through every
reader of `control_state` in this layer. -/

/-- Probability-layer node: `InfraNode` plus the v2.0 numeric fields.
`effectiveness` and `bypass_probability` are Modelled from the spec (§3):
absent from models.py, supplied by breach_data.py, read by
probability_engine.py. -/
structure ProbNode where
  id : String
  type : NodeType
  name : String := ""
  control_state : Option ControlState := none
  annual_cost : Option ℚ := none
  control_type : Option String := none
  effectiveness : ℚ := 0
  bypass_probability : ℚ := 0
deriving DecidableEq, Repr

/-- Probability-layer edge: `InfraEdge` plus `exploit_probability`,
Modelled from the spec (§3: in `[0,1]`, default 0.5). -/
structure ProbEdge where
  source : String
  target : String
  edge_type : EdgeType := EdgeType.access
  exploit_probability : ℚ := 1/2
deriving DecidableEq, Repr

/-- The graph as seen by the probability layer. -/
structure ProbGraph where
  nodes : List ProbNode := []
  edges : List ProbEdge := []
deriving DecidableEq, Repr

/-- The SCM as seen by the probability layer. -/
structure ProbSCM where
  graph : ProbGraph
  equations : List StructuralEquation := []
deriving DecidableEq, Repr

/-- An adversary profile (probability_engine.py lines 19-41);
`name`/`description` strings omitted. -/
structure Profile where
  skill_multiplier : ℚ
  bypass_bonus : ℚ
  noise_level : ℚ
deriving DecidableEq, Repr

/-- The APT preset (probability_engine.py lines 20-26), the default
profile. -/
def apt_profile : Profile :=
  { skill_multiplier := 13/10, bypass_bonus := 15/100, noise_level := 1/10 }

/-- The mutable `control_state` attribute of every node, as an overlay map
keyed by node id. -/
abbrev CtrlState := String → Option ControlState

/-- The overlay agreeing with the graph's stored states (no mutation
yet). -/
def state_of (g : ProbGraph) : CtrlState :=
  fun i => ((g.nodes.reverse.find? (fun n => n.id = i)).map
    (fun n => n.control_state)).join

/-- `self._node_map` (probability_engine.py line 56): a dict keyed by node
id, so a duplicated id resolves to the LAST node carrying it. -/
def node_map (g : ProbGraph) (i : String) : Option ProbNode :=
  g.nodes.reverse.find? (fun n => n.id = i)

/-- `ProbabilityEngine._get_edge_probability` (probability_engine.py lines
86-91): the exploit probability of the first matching edge, default 0.5. -/
def get_edge_probability (g : ProbGraph) (src tgt : String) : ℚ :=
  match g.edges.find? (fun e => e.source = src ∧ e.target = tgt) with
  | some e => e.exploit_probability
  | none => 1/2

/-- `ProbabilityEngine._compute_control_residual` (probability_engine.py
lines 93-116): multiply the bypass probabilities (with the adversary
bonus, clamped to `[0.01, 1]`; partial controls at 1.5x bypass) of every
control listed as a negated parent of an equation targeting the node. -/
def compute_control_residual (scm : ProbSCM) (prof : Profile) (σ : CtrlState)
    (tgt : String) : ℚ :=
  scm.equations.foldl
    (fun residual eq =>
      if eq.target_variable = tgt then
        eq.negated_parents.foldl
          (fun residual cid =>
            match node_map scm.graph cid with
            | some ctrl =>
              if ctrl.type = NodeType.control then
                match σ cid with
                | some ControlState.active =>
                  residual * min 1 (max (1/100) (ctrl.bypass_probability + prof.bypass_bonus))
                | some ControlState.partial' =>
                  residual * min 1 (max (1/100) (ctrl.bypass_probability * (3/2) + prof.bypass_bonus))
                | _ => residual
              else residual
            | none => residual)
          residual
      else residual)
    1

/-- `ProbabilityEngine.compute_path_risk` (probability_engine.py lines
63-84): 0 for paths shorter than two nodes; else the product over hops of
`min(1, exploit_probability * skill) * residual(target)`, rounded to six
decimals. -/
def compute_path_risk (scm : ProbSCM) (prof : Profile) (σ : CtrlState)
    (path : List String) : ℚ :=
  if path.length < 2 then 0
  else
    py_round
      ((path.zip path.tail).foldl
        (fun risk hop =>
          risk * min 1 (get_edge_probability scm.graph hop.1 hop.2 * prof.skill_multiplier)
            * compute_control_residual scm prof σ hop.2)
        1)
      6

/-- The adjacency map of `_enumerate_attack_paths` (probability_engine.py
lines 186-189): successors in edge-insertion order. -/
def adjacency (g : ProbGraph) : String → List String :=
  fun n => (g.edges.filter (fun e => e.source = n)).map (fun e => e.target)

/-- The BFS queue loop of `_find_paths_bfs` (probability_engine.py lines
197-215).  `fuel` bounds the number of `while` iterations; every theorem
below is either generic in `fuel` or instantiated with fuel sufficient for
its concrete input (the loop itself always terminates because queued paths
are simple). -/
def bfs_loop (adj : String → List String) (fin : String) (maxDepth : ℕ) :
    ℕ → List (String × List String) → List (List String) → List (List String)
  | 0, _, paths => paths
  | _ + 1, [], paths => paths
  | fuel + 1, (node, path) :: queue, paths =>
    if 5 ≤ paths.length then paths
    else if maxDepth < path.length then bfs_loop adj fin maxDepth fuel queue paths
    else if node = fin then bfs_loop adj fin maxDepth fuel queue (paths ++ [path])
    else
      bfs_loop adj fin maxDepth fuel
        (queue ++ ((adj node).filter (fun nb => nb ∉ path)).map
          (fun nb => (nb, path ++ [nb])))
        paths

/-- `ProbabilityEngine._find_paths_bfs`. -/
def find_paths_bfs (adj : String → List String) (start fin : String)
    (maxDepth fuel : ℕ) : List (List String) :=
  bfs_loop adj fin maxDepth fuel [(start, [start])] []

/-- `ProbabilityEngine._enumerate_attack_paths` (probability_engine.py
lines 179-195): paths from every identity to every goal target (the source
iterates `set(goal.target_assets)`, modelled as the deduplicated list),
capped at 20. -/
def enumerate_attack_paths (g : ProbGraph) (goal : GoalPredicate)
    (fuel : ℕ) : List (List String) :=
  ((g.nodes.filter (fun n => n.type = NodeType.identity)).flatMap
    (fun i => goal.target_assets.dedup.flatMap
      (fun t => find_paths_bfs (adjacency g) i.id t 10 fuel))).take 20

/-! ### Monte Carlo (probability_engine.py lines 234-323)

Python's module-level `random.random()` is a single global stream; the
embedding passes the stream as `rng : ℕ → ℚ` together with the current
position, which every draw advances by one.  Nothing in
probability_engine.py (or anywhere else in the repository) ever calls
`random.seed`, so consecutive calls continue the same stream — this is the
subject of claim C4. -/

/-- The control-bypass rolls of `_simulate_path` for one hop target against
one equation's negated parents (probability_engine.py lines 310-322).
Active controls clamp `bypass + bonus` to `[0.01, 1]`; partial controls use
`min(1, 1.5 * bypass + bonus)` — no lower clamp, exactly as in the
source. -/
def roll_ctrls (scm : ProbSCM) (prof : Profile) (σ : CtrlState) (rng : ℕ → ℚ) :
    List String → ℕ → Bool × ℕ
  | [], ix => (true, ix)
  | cid :: cids, ix =>
    match node_map scm.graph cid with
    | some ctrl =>
      if ctrl.type = NodeType.control then
        match σ cid with
        | some ControlState.active =>
          if rng ix > min 1 (max (1/100) (ctrl.bypass_probability + prof.bypass_bonus)) then
            (false, ix + 1)
          else roll_ctrls scm prof σ rng cids (ix + 1)
        | some ControlState.partial' =>
          if rng ix > min 1 (ctrl.bypass_probability * (3/2) + prof.bypass_bonus) then
            (false, ix + 1)
          else roll_ctrls scm prof σ rng cids (ix + 1)
        | _ => roll_ctrls scm prof σ rng cids ix
      else roll_ctrls scm prof σ rng cids ix
    | none => roll_ctrls scm prof σ rng cids ix

/-- The equation scan of `_simulate_path` for one hop target
(probability_engine.py lines 310-312). -/
def roll_equations (scm : ProbSCM) (prof : Profile) (σ : CtrlState) (rng : ℕ → ℚ)
    (tgt : String) : List StructuralEquation → ℕ → Bool × ℕ
  | [], ix => (true, ix)
  | eq :: eqs, ix =>
    if eq.target_variable = tgt then
      match roll_ctrls scm prof σ rng eq.negated_parents ix with
      | (false, ix') => (false, ix')
      | (true, ix') => roll_equations scm prof σ rng tgt eqs ix'
    else roll_equations scm prof σ rng tgt eqs ix

/-- The hop loop of `_simulate_path` (probability_engine.py lines
298-323): per hop one edge-exploit roll, then the control rolls. -/
def simulate_hops (scm : ProbSCM) (prof : Profile) (σ : CtrlState) (rng : ℕ → ℚ) :
    List (String × String) → ℕ → Bool × ℕ
  | [], ix => (true, ix)
  | (src, tgt) :: hops, ix =>
    if rng ix > min 1 (get_edge_probability scm.graph src tgt * prof.skill_multiplier) then
      (false, ix + 1)
    else
      match roll_equations scm prof σ rng tgt scm.equations (ix + 1) with
      | (false, ix') => (false, ix')
      | (true, ix') => simulate_hops scm prof σ rng hops ix'

/-- `ProbabilityEngine._simulate_path`. -/
def simulate_path (scm : ProbSCM) (prof : Profile) (σ : CtrlState)
    (rng : ℕ → ℚ) (path : List String) (ix : ℕ) : Bool × ℕ :=
  simulate_hops scm prof σ rng (path.zip path.tail) ix

/-- The per-trial path loop of `monte_carlo_simulate` (probability_engine.py
lines 258-262): try each path in order, stop at the first success. -/
def mc_try_paths (scm : ProbSCM) (prof : Profile) (σ : CtrlState)
    (rng : ℕ → ℚ) : List (List String) → ℕ → Bool × ℕ
  | [], ix => (false, ix)
  | p :: ps, ix =>
    match simulate_path scm prof σ rng p ix with
    | (true, ix') => (true, ix')
    | (false, ix') => mc_try_paths scm prof σ rng ps ix'

/-- The trial loop of `monte_carlo_simulate` (probability_engine.py lines
257-264): count successes over `n` sequential trials. -/
def mc_runs (scm : ProbSCM) (prof : Profile) (σ : CtrlState) (rng : ℕ → ℚ)
    (paths : List (List String)) : ℕ → ℕ → ℕ × ℕ
  | 0, ix => (0, ix)
  | n + 1, ix =>
    match mc_try_paths scm prof σ rng paths ix with
    | (succ, ix') =>
      match mc_runs scm prof σ rng paths n ix' with
      | (rest, ix'') => ((if succ then 1 else 0) + rest, ix'')

/-- The random-dependent fields of the `monte_carlo_simulate` result dict
(probability_engine.py lines 283-296).  The all-zero distribution buckets
and the 95% CI — deterministic functions of `probability` and
`simulations` (the CI via `math.sqrt`) — are omitted. -/
structure MCOut where
  simulations : ℕ
  successes : ℕ
  probability : ℚ
deriving DecidableEq, Repr

/-- The path list used by `monte_carlo_simulate` (probability_engine.py
lines 247-252): the enumerated attack paths, falling back to the witness
path when none were found. -/
def mc_paths (g : ProbGraph) (goal : GoalPredicate) (inev : InevitabilityResult)
    (fuel : ℕ) : List (List String) :=
  if enumerate_attack_paths g goal fuel = [] then
    match inev.witness_path with
    | some wp => [wp]
    | none => []
  else enumerate_attack_paths g goal fuel

/-- `ProbabilityEngine.monte_carlo_simulate` (probability_engine.py lines
234-296): enumerate paths (falling back to the witness path, or returning
`_empty_mc_result`); run `n` trials on the shared RNG stream; report
`successes / n` (the source raises ZeroDivisionError for `n = 0`; claims
only use `n ≥ 1`).  Returns the advanced stream position. -/
def monte_carlo_simulate (scm : ProbSCM) (prof : Profile) (σ : CtrlState)
    (goal : GoalPredicate) (inev : InevitabilityResult) (n : ℕ) (fuel : ℕ)
    (rng : ℕ → ℚ) (ix : ℕ) : MCOut × ℕ :=
  if mc_paths scm.graph goal inev fuel = [] then
    ({ simulations := 0, successes := 0, probability := 0 }, ix)
  else
    match mc_runs scm prof σ rng (mc_paths scm.graph goal inev fuel) n ix with
    | (succ, ix') =>
      ({ simulations := n, successes := succ, probability := (succ : ℚ) / (n : ℚ) }, ix')

/-! ## Claim C4 — Monte Carlo runs share the never-seeded global RNG -/

/-- The C4 graph: one identity, one asset, one edge with exploit
probability 0.5. -/
def graph_c4 : ProbGraph :=
  { nodes := [ { id := "atk", type := NodeType.identity, name := "atk" },
               { id := "w", type := NodeType.asset, name := "w" } ],
    edges := [ { source := "atk", target := "w", edge_type := EdgeType.access,
                 exploit_probability := 1/2 } ] }

/-- The C4 SCM (no structural equations, so no control rolls). -/
def scm_c4 : ProbSCM := { graph := graph_c4 }

/-- The C4 goal. -/
def goal_c4 : GoalPredicate := { id := "g4", name := "g4", target_assets := ["w"] }

/-- The inevitability result handed to `monte_carlo_simulate` (whose
witness-path fallback is not taken: paths exist). -/
def inev_c4 : InevitabilityResult :=
  { score := 1, is_inevitable := true, solver_result := { status := SolverStatus.sat } }

/-- A concrete global RNG stream: 0.6 at position 0, then 0.7. -/
def rng_c4 : ℕ → ℚ := fun i => if i = 0 then 3/5 else 7/10

/-- The first `monte_carlo_simulate` call, starting at stream position 0. -/
def mc_run1 : MCOut × ℕ :=
  monte_carlo_simulate scm_c4 apt_profile (state_of graph_c4) goal_c4 inev_c4 1 12 rng_c4 0

/-- The second, identical call: because nothing ever seeds (or resets) the
global stream, it starts where the first stopped. -/
def mc_run2 : MCOut × ℕ :=
  monte_carlo_simulate scm_c4 apt_profile (state_of graph_c4) goal_c4 inev_c4 1 12 rng_c4 mc_run1.2

/-- **C4 (code evaluated at the failing input).** Two calls of
`monte_carlo_simulate` with identical inputs (same SCM, goal, result,
`n_simulations = 1`) give different outputs: the effective edge probability
is `min(1, 0.5 * 1.3) = 0.65`, the first call consumes draw 0.6 (success,
probability 1.0), the second consumes draw 0.7 (failure, probability 0.0).
The claimed input-derived seeding does not exist: `random.seed` is called
nowhere in the repository. -/
theorem monte_carlo_unseeded_stream_divergence :
    mc_run1.1.successes = 1 ∧ mc_run2.1.successes = 0 ∧ mc_run1.1 ≠ mc_run2.1 := by
  have hep : get_edge_probability scm_c4.graph "atk" "w" = 1/2 := rfl
  have hsim0 : simulate_hops scm_c4 apt_profile (state_of graph_c4) rng_c4 [("atk", "w")] 0
      = (true, 1) := by
    rw [simulate_hops, hep, if_neg (by norm_num [rng_c4, apt_profile, min_def])]
    rfl
  have hsim1 : simulate_hops scm_c4 apt_profile (state_of graph_c4) rng_c4 [("atk", "w")] 1
      = (false, 2) := by
    rw [simulate_hops, hep, if_pos (by norm_num [rng_c4, apt_profile, min_def])]
  have ht0 : mc_try_paths scm_c4 apt_profile (state_of graph_c4) rng_c4 [["atk", "w"]] 0
      = (true, 1) := by
    rw [mc_try_paths, simulate_path,
      show (["atk", "w"].zip ["atk", "w"].tail) = [("atk", "w")] from rfl, hsim0]
  have ht1 : mc_try_paths scm_c4 apt_profile (state_of graph_c4) rng_c4 [["atk", "w"]] 1
      = (false, 2) := by
    rw [mc_try_paths, simulate_path,
      show (["atk", "w"].zip ["atk", "w"].tail) = [("atk", "w")] from rfl, hsim1]
    rfl
  have hm0 : mc_runs scm_c4 apt_profile (state_of graph_c4) rng_c4 [["atk", "w"]] 1 0
      = (1, 1) := by
    simp only [mc_runs, ht0]
    simp
  have hm1 : mc_runs scm_c4 apt_profile (state_of graph_c4) rng_c4 [["atk", "w"]] 1 1
      = (0, 2) := by
    simp only [mc_runs, ht1]
    simp
  have hmp : mc_paths scm_c4.graph goal_c4 inev_c4 12 = [["atk", "w"]] := by decide
  have hr1 : mc_run1 = ({ simulations := 1, successes := 1, probability := 1 }, 1) := by
    unfold mc_run1 monte_carlo_simulate
    rw [hmp, if_neg (by decide : ¬ ([["atk", "w"]] = ([] : List (List String)))), hm0]
    norm_num
  have hr2 : mc_run2 = ({ simulations := 1, successes := 0, probability := 0 }, 2) := by
    unfold mc_run2 monte_carlo_simulate
    rw [hr1]
    rw [hmp, if_neg (by decide : ¬ ([["atk", "w"]] = ([] : List (List String)))), hm1]
    norm_num
  rw [hr1, hr2]
  refine ⟨rfl, rfl, fun hcon => ?_⟩
  have h2 := congrArg MCOut.successes hcon
  simp at h2

/-! ## Goal risk and control-impact ranking (probability_engine.py) -/

/-- `ProbabilityEngine._count_controls_on_paths` (probability_engine.py
lines 217-230): average number of active controls per path node. -/
def count_controls_on_paths (scm : ProbSCM) (σ : CtrlState)
    (paths : List (List String)) : ℚ :=
  let total_controls : ℕ := paths.foldl
    (fun acc path => path.foldl
      (fun acc node_id => scm.equations.foldl
        (fun acc eq =>
          if eq.target_variable = node_id then
            acc + eq.negated_parents.countP
              (fun cid => (node_map scm.graph cid).isSome
                ∧ σ cid = some ControlState.active)
          else acc)
        acc)
      acc)
    0
  let total_hops := paths.foldl (fun acc p => acc + p.length) 0
  (total_controls : ℚ) / ((max total_hops 1 : ℕ) : ℚ)

/-- The result dict of `ProbabilityEngine.compute_goal_risk`
(probability_engine.py lines 120-177); the profile-name string is
omitted. -/
structure GoalRisk where
  goal_id : String
  goal_name : String
  probabilistic_score : ℚ
  path_risks : List (List String × ℚ × ℕ) := []
  combined_risk : ℚ
  defense_depth_factor : ℚ := 1
  total_paths_analyzed : ℕ := 0
deriving DecidableEq, Repr

/-- `ProbabilityEngine.compute_goal_risk` (probability_engine.py lines
120-177): per-path risks, `combined = 1 - prod(1 - risk)` rounded to 4
decimals, the 5 riskiest paths (stable sort descending), and the
defense-depth factor.  The path list (with witness fallback) is the same
construction as in `monte_carlo_simulate` (`mc_paths`). -/
def compute_goal_risk (scm : ProbSCM) (prof : Profile) (σ : CtrlState)
    (goal : GoalPredicate) (inev : InevitabilityResult) (fuel : ℕ) : GoalRisk :=
  if mc_paths scm.graph goal inev fuel = [] then
    { goal_id := goal.id, goal_name := goal.name, probabilistic_score := 0,
      path_risks := [], combined_risk := 0, defense_depth_factor := 1 }
  else
    let paths := mc_paths scm.graph goal inev fuel
    let path_risks := paths.map (fun p => (p, compute_path_risk scm prof σ p, p.length))
    let combined_risk := py_round (1 - path_risks.foldl (fun c pr => c * (1 - pr.2.1)) 1) 4
    { goal_id := goal.id, goal_name := goal.name,
      probabilistic_score := combined_risk,
      path_risks := (path_risks.mergeSort (fun a b => b.2.1 ≤ a.2.1)).take 5,
      combined_risk := combined_risk,
      defense_depth_factor := py_round (count_controls_on_paths scm σ paths) 2,
      total_paths_analyzed := paths.length }

/-- One ranking dict of `rank_control_impact` (probability_engine.py lines
376-387).  `cost_effectiveness = none` models Python's `float('inf')`
(cost 0 with positive marginal reduction). -/
structure RankEntry where
  control_id : String
  control_name : String
  control_type : String
  annual_cost : ℚ
  effectiveness : ℚ
  marginal_risk_reduction : ℚ
  risk_reduction_percent : ℚ
  cost_effectiveness : Option ℚ
  is_critical : Bool
  is_redundant : Bool
deriving DecidableEq, Repr

/-- Writing `ctrl.control_state = INACTIVE` (probability_engine.py line
360) on the state overlay. -/
def set_inactive (σ : CtrlState) (cid : String) : CtrlState :=
  fun x => if x = cid then some ControlState.inactive else σ x

/-- Writing `ctrl.control_state = original_state` (probability_engine.py
line 369). -/
def restore_state (σ : CtrlState) (cid : String) (orig : Option ControlState) :
    CtrlState :=
  fun x => if x = cid then orig else σ x

/-- Saving the state, overwriting it and writing the saved value back is
the identity on the state. -/
lemma restore_set_inactive (σ : CtrlState) (cid : String) :
    restore_state (set_inactive σ cid) cid (σ cid) = σ := by
  funext x
  by_cases hx : x = cid <;> simp [restore_state, set_inactive, hx]

/-- The per-control loop of `rank_control_impact` (probability_engine.py
lines 357-387): save the control's state, set it INACTIVE, recompute every
goal's combined risk against the baseline, restore the state, and build the
ranking entry. -/
def rank_loop (scm : ProbSCM) (prof : Profile)
    (pairs : List (GoalPredicate × InevitabilityResult))
    (baseline : List (String × ℚ)) (fuel : ℕ) :
    List ProbNode → CtrlState → List RankEntry × CtrlState
  | [], σ => ([], σ)
  | ctrl :: rest, σ =>
    let σ1 := set_inactive σ ctrl.id
    let risk_increase := pairs.foldl
      (fun acc gi =>
        acc + ((compute_goal_risk scm prof σ1 gi.1 gi.2 fuel).combined_risk
          - ((baseline.lookup gi.1.id).getD 0)))
      0
    let σ2 := restore_state σ1 ctrl.id (σ ctrl.id)
    let cost := ctrl.annual_cost.getD 0
    let marg := max 0 risk_increase
    let res := rank_loop scm prof pairs baseline fuel rest σ2
    ({ control_id := ctrl.id, control_name := ctrl.name,
       control_type := ctrl.control_type.getD "unknown",
       annual_cost := cost,
       effectiveness := ctrl.effectiveness,
       marginal_risk_reduction := py_round marg 4,
       risk_reduction_percent := py_round (marg * 100) 1,
       cost_effectiveness :=
         if 0 < cost then some (py_round (marg / cost * 100) 2)
         else if 0 < marg then none else some 0,
       is_critical := marg > 1/20,
       is_redundant := marg < 1/1000 ∧ cost > 0 } :: res.1,
     res.2)

/-- `ProbabilityEngine.rank_control_impact` (probability_engine.py lines
339-391): baseline risks per goal id, the per-control loop over the
CONTROL-typed nodes, and a final stable sort by marginal risk reduction
descending.  Returns the rankings together with the final control-state
overlay. -/
def rank_control_impact (scm : ProbSCM) (prof : Profile)
    (goals : List GoalPredicate) (inevs : List InevitabilityResult)
    (fuel : ℕ) (σ : CtrlState) : List RankEntry × CtrlState :=
  let pairs := goals.zip inevs
  let baseline := pairs.map
    (fun gi => (gi.1.id, (compute_goal_risk scm prof σ gi.1 gi.2 fuel).combined_risk))
  let res := rank_loop scm prof pairs baseline fuel
    (scm.graph.nodes.filter (fun n => n.type = NodeType.control)) σ
  (res.1.mergeSort (fun a b => b.marginal_risk_reduction ≤ a.marginal_risk_reduction),
   res.2)

/-! ## Claim C5 — `rank_control_impact` restores every control state -/

/-- The loop leaves the state overlay exactly as it found it. -/
lemma rank_loop_restores (scm : ProbSCM) (prof : Profile)
    (pairs : List (GoalPredicate × InevitabilityResult))
    (baseline : List (String × ℚ)) (fuel : ℕ) :
    ∀ (cs : List ProbNode) (σ : CtrlState),
      (rank_loop scm prof pairs baseline fuel cs σ).2 = σ := by
  intro cs
  induction cs with
  | nil => intro σ; rfl
  | cons ctrl rest ih =>
    intro σ
    simp only [rank_loop]
    rw [restore_set_inactive]
    exact ih σ

/-- **C5.** `rank_control_impact` returns with every control's
`control_state` equal to its value before the call, for every SCM,
profile, goal/result lists, path-enumeration fuel and starting state: the
final state overlay is the initial one.  (Every operation of
`compute_goal_risk` on the v2.0 data model is total, so the single exit of
the loop body — mutate, recompute, restore — is the only exit path; under
the shipped v1 `models.py` the only possible runtime error, an
`AttributeError` on a missing v2.0 field, would fire either in the
baseline pass before any mutation or at the `ctrl.effectiveness` read
after the restore, so restoration also holds there.) -/
theorem rank_control_impact_restores_state (scm : ProbSCM) (prof : Profile)
    (goals : List GoalPredicate) (inevs : List InevitabilityResult)
    (fuel : ℕ) (σ : CtrlState) :
    (rank_control_impact scm prof goals inevs fuel σ).2 = σ := by
  simp only [rank_control_impact]
  exact rank_loop_restores scm prof (goals.zip inevs) _ fuel _ σ
